import Mathlib

/-!
Shallow embedding of the laundromat-finder backend (`src/main.py`):
the geocoder (`geocode_location`), the address builder (`build_address`),
the result-normalization loop body and the search orchestrator
(`search_laundromats`).  Network calls are replaced by explicit upstream
fixtures (the parsed JSON responses of the geocoding service and of the
Overpass spatial database); Python floats are modelled as rationals and
Python `None` as `Option.none`.
-/

namespace LaundromatFinder

/-- The Python exceptions the embedded fragment can raise
(`float(None)` raises `TypeError`, `float("garbage")` raises `ValueError`). -/
inductive PyExc where
  | typeError
  | valueError
deriving DecidableEq

/-- A JSON scalar as it reaches `float(item.get("lat"))` in `geocode_location`:
either a JSON number or a JSON string.  A missing key (or JSON null) is
`Option.none` at the call site. -/
inductive JVal where
  | num (q : ℚ)
  | str (s : String)
deriving DecidableEq

/-- Numeric value of a list of decimal digit characters. -/
def digitsVal (l : List Char) : ℕ :=
  l.foldl (fun acc c => acc * 10 + (c.toNat - 48)) 0

/-- Strip leading and trailing whitespace from a character list
(Python `float` ignores surrounding whitespace). -/
def trimChars (l : List Char) : List Char :=
  ((l.dropWhile Char.isWhitespace).reverse.dropWhile Char.isWhitespace).reverse

/-- Split a character list at the first dot, if any. -/
def breakDot : List Char → List Char × Option (List Char)
  | [] => ([], none)
  | c :: r =>
    if c = '.' then ([], some r)
    else
      let p := breakDot r
      (c :: p.1, p.2)

/-- Parse of a plain decimal literal: the fragment of Python `float(...)`
string syntax exercised by geocoder payloads (optional sign, integer part,
optional fractional part, surrounding whitespace).  Returns `none` exactly
when Python `float` would raise `ValueError` on such inputs. -/
def parseFloatStr (s : String) : Option ℚ :=
  let cs := trimChars s.toList
  let sb : ℤ × List Char :=
    match cs with
    | '-' :: r => (-1, r)
    | '+' :: r => (1, r)
    | _ => (1, cs)
  match breakDot sb.2 with
  | (ip, none) =>
    if ip ≠ [] ∧ ip.all Char.isDigit then some ((sb.1 : ℚ) * (digitsVal ip : ℚ))
    else none
  | (ip, some fp) =>
    if (ip ≠ [] ∨ fp ≠ []) ∧ ip.all Char.isDigit ∧ fp.all Char.isDigit then
      some ((sb.1 : ℚ) * ((digitsVal ip : ℚ) + (digitsVal fp : ℚ) / (10 : ℚ) ^ fp.length))
    else none

/-- Python `float(x)` applied to the result of `item.get(key)`:
a missing key gives `None` hence `TypeError`; a JSON number converts
directly; a JSON string is parsed, `ValueError` on failure. -/
def pyFloat : Option JVal → Except PyExc ℚ
  | none => .error .typeError
  | some (.num q) => .ok q
  | some (.str s) =>
    match parseFloatStr s with
    | some q => .ok q
    | none => .error .valueError

/-- One entry of the geocoding service's JSON array response. -/
structure GeoItem where
  lat : Option JVal
  lon : Option JVal
  display_name : Option String
deriving DecidableEq

/-- The geocoding service's HTTP response: status code and parsed JSON body. -/
structure GeoResponse where
  status_code : ℕ
  data : List GeoItem
deriving DecidableEq

/-- The dictionary `geocode_location` returns on success. -/
structure Center where
  lat : ℚ
  lon : ℚ
  display_name : Option String
deriving DecidableEq

/-- `geocode_location` from `src/main.py`, with the HTTP call replaced by the
fixture response.  Non-200 status or an empty match list give `none`
("not found"); otherwise the first match's coordinates are converted with
`float(...)`, whose failure RAISES (the `Except.error` branch). -/
def geocode_location (resp : GeoResponse) : Except PyExc (Option Center) :=
  if resp.status_code ≠ 200 then .ok none
  else
    match resp.data with
    | [] => .ok none
    | item :: _ => do
      let la ← pyFloat item.lat
      let lo ← pyFloat item.lon
      .ok (some ⟨la, lo, item.display_name⟩)

/-- An OSM tag mapping (keys unique), as a lookup list. -/
abbrev Tags := List (String × String)

/-- Python truthiness of an optional string: `None` and `""` are falsy. -/
def truthy : Option String → Bool
  | none => false
  | some s => !(s == "")

/-- Python `a or b` on optional strings: `b` whenever `a` is falsy. -/
def pyOr (a b : Option String) : Option String :=
  if truthy a then a else b

/-- Python `a or d` with a string-literal default. -/
def pyOrStr (a : Option String) (d : String) : String :=
  if truthy a then a.getD d else d

/-- `build_address` from `src/main.py`. -/
def build_address (tags : Tags) : Option String :=
  let num := tags.lookup "addr:housenumber"
  let street := tags.lookup "addr:street"
  let parts0 : List String :=
    if truthy street then
      [(if truthy num then num.getD "" ++ " " else "") ++ street.getD ""]
    else []
  let city := pyOr (pyOr (tags.lookup "addr:city") (tags.lookup "addr:town"))
      (tags.lookup "addr:village")
  let state := pyOr (tags.lookup "addr:state") (tags.lookup "addr:province")
  let postcode := tags.lookup "addr:postcode"
  let locality := String.intercalate ", "
      (([city, state].filter truthy).map (fun o => o.getD ""))
  let parts1 := if locality ≠ "" then parts0 ++ [locality] else parts0
  let parts := if truthy postcode then parts1 ++ [postcode.getD ""] else parts1
  if parts ≠ [] then some (String.intercalate ", " parts) else none

/-- The `center` sub-object of an Overpass element (for non-node geometries). -/
structure CenterObj where
  lat : Option ℚ
  lon : Option ℚ
deriving DecidableEq

/-- A raw Overpass element as the normalization loop reads it: every field
the code accesses with `.get` is optional, so arbitrary element shapes are
representable. -/
structure RawElement where
  type : Option String
  id : Option ℤ
  lat : Option ℚ
  lon : Option ℚ
  center : Option CenterObj
  tags : Option Tags
deriving DecidableEq

/-- One entry of the `results` list built by `search_laundromats`. -/
structure SearchResult where
  id : String
  name : String
  address : Option String
  lat : Option ℚ
  lon : Option ℚ
  distance_km : Option ℚ
  opening_hours : Option String
  phone : Option String
  website : Option String
  osm_url : String
deriving DecidableEq

/-- How Python renders `el.get('type')` inside an f-string: `None` prints
as the literal text "None". -/
def optStr : Option String → String
  | none => "None"
  | some s => s

/-- How Python renders `el.get('id')` inside an f-string. -/
def optIdStr : Option ℤ → String
  | none => "None"
  | some n => toString n

/-- Coordinate resolution of the loop: a `node` element uses its direct
`lat`/`lon`; any other element (including a missing type) reads them from
`el.get("center") or {}`. -/
def elementCoords (el : RawElement) : Option ℚ × Option ℚ :=
  if el.type = some "node" then (el.lat, el.lon)
  else
    match el.center with
    | some c => (c.lat, c.lon)
    | none => (none, none)

/-- Body of the `for el in elements` loop of `search_laundromats`:
`none` models `continue` (the element is dropped). -/
def normalizeElement (el : RawElement) : Option SearchResult :=
  let tags := el.tags.getD []
  let name := pyOrStr (tags.lookup "name") "Laundromat"
  let c := elementCoords el
  match c.1, c.2 with
  | some la, some lo =>
    some {
      id := optStr el.type ++ "/" ++ optIdStr el.id
      name := name
      address := pyOr (build_address tags) (tags.lookup "addr:full")
      lat := some la
      lon := some lo
      distance_km := none
      opening_hours := tags.lookup "opening_hours"
      phone := pyOr (tags.lookup "phone") (tags.lookup "contact:phone")
      website := pyOr (tags.lookup "website") (tags.lookup "contact:website")
      osm_url := "https://www.openstreetmap.org/" ++ optStr el.type ++ "/" ++ optIdStr el.id
    }
  | _, _ => none

/-- The sort key `lambda x: (x["name"] or "zzzz")` of the final `sorted`. -/
def sortKey (r : SearchResult) : String :=
  pyOrStr (some r.name) "zzzz"

/-- The Overpass HTTP response fixture: status code and the parsed JSON
body's optional `elements` array (`data.get("elements", [])`). -/
structure OverpassResponse where
  status_code : ℕ
  elements : Option (List RawElement)
deriving DecidableEq

/-- The JSON object `search_laundromats` returns on success. -/
structure SearchResponse where
  center : Center
  count : ℕ
  results : List SearchResult
deriving DecidableEq

/-- Outcome of one request: an `HTTPException`, an uncaught Python
exception, or a success payload. -/
inductive SearchOutcome where
  | httpError (status : ℕ) (detail : String)
  | pyError (e : PyExc)
  | success (resp : SearchResponse)
deriving DecidableEq

/-- Python `int(...)` on a numeric value: truncation toward zero. -/
def ratTrunc (q : ℚ) : ℤ :=
  if 0 ≤ q then ⌊q⌋ else -⌊-q⌋

/-- `radius_m = int(radius_km * 1000)`. -/
def radiusMeters (radius_km : ℚ) : ℤ :=
  ratTrunc (radius_km * 1000)

/-- One line of the Overpass query template:
`<geom>["<key>"="<value>"](around:<radius_m>,<lat>,<lon>);`. -/
def overpassClause (geom key value : String) (radius_m : ℤ) (la lo : ℚ) : String :=
  "      " ++ geom ++ "[\"" ++ key ++ "\"=\"" ++ value ++ "\"](around:"
    ++ toString radius_m ++ "," ++ toString la ++ "," ++ toString lo ++ ");\n"

/-- Header of the f-string `query_template` (before `.strip()`). -/
def overpassHeader : String :=
  "\n    [out:json][timeout:25];\n    (\n"

/-- Footer of the f-string `query_template` (before `.strip()`). -/
def overpassFooter (max_results : ℕ) : String :=
  "    );\n    out center tags qt " ++ toString max_results ++ ";\n    "

/-- The f-string `query_template` of `search_laundromats`, verbatim:
six fixed clause lines between header and footer. -/
def overpassQueryTemplate (radius_m : ℤ) (la lo : ℚ) (max_results : ℕ) : String :=
  overpassHeader
    ++ overpassClause "node" "shop" "laundry" radius_m la lo
    ++ overpassClause "way" "shop" "laundry" radius_m la lo
    ++ overpassClause "node" "amenity" "laundry" radius_m la lo
    ++ overpassClause "way" "amenity" "laundry" radius_m la lo
    ++ overpassClause "node" "amenity" "laundrette" radius_m la lo
    ++ overpassClause "way" "amenity" "laundrette" radius_m la lo
    ++ overpassFooter max_results

/-- The payload actually POSTed to Overpass: `query_template.strip()`. -/
def overpassQuery (center : Center) (radius_km : ℚ) (max_results : ℕ) : String :=
  (overpassQueryTemplate (radiusMeters radius_km) center.lat center.lon max_results).trim

/-- All surviving normalized results, in upstream order. -/
def normalizedResults (ov : OverpassResponse) : List SearchResult :=
  (ov.elements.getD []).filterMap normalizeElement

/-- The Bool comparator of the final `sorted(results, key=...)`. -/
def resultLE (a b : SearchResult) : Bool :=
  decide (sortKey a ≤ sortKey b)

/-- The results after the stable sort by name key (before truncation). -/
def sortedResults (ov : OverpassResponse) : List SearchResult :=
  (normalizedResults ov).mergeSort resultLE

/-- `search_laundromats` from `src/main.py`, the two network calls replaced
by fixture responses.  The second component of the pair is the Overpass
payload submitted for this request (`none` when the request never reached
the spatial-query step). -/
def search_laundromats (geo : GeoResponse) (ov : OverpassResponse)
    (query : String) (radius_km : ℚ) (max_results : ℕ) :
    SearchOutcome × Option String :=
  match geocode_location geo with
  | .error e => (.pyError e, none)
  | .ok none => (.httpError 404 "Location not found. Try a different search.", none)
  | .ok (some center) =>
    let payload := overpassQuery center radius_km max_results
    if ov.status_code ≠ 200 then
      (.httpError 502 "Upstream map service error. Please try again later.", some payload)
    else
      let results := (sortedResults ov).take max_results
      (.success ⟨center, results.length, results⟩, some payload)

deriving instance DecidableEq for Except

/-! Spec-side definitions, written from the specification's wording, to be
compared with the definitions translated from the source. -/

/-- First value of the list that is present and non-empty (the spec's
"falling back to" chain for locality fields). -/
def firstNonEmpty : List (Option String) → Option String
  | [] => none
  | none :: r => firstNonEmpty r
  | some s :: r => if s = "" then firstNonEmpty r else some s

/-- Spec §4.3 step 1: "Street line: housenumber (if present) + space +
street name, when street is present; omitted entirely if no street tag." -/
def streetLineSpec (tags : Tags) : List String :=
  match tags.lookup "addr:street" with
  | none => []
  | some st =>
    if st = "" then []
    else
      match tags.lookup "addr:housenumber" with
      | none => [st]
      | some n => if n = "" then [st] else [n ++ " " ++ st]

/-- Spec §4.3 step 2: "Locality line: city (falling back to town, then
village) and state/province (falling back to province), joined by ", ",
each filtered for presence; omitted if neither present." -/
def localityLineSpec (tags : Tags) : List String :=
  let city := firstNonEmpty
    [tags.lookup "addr:city", tags.lookup "addr:town", tags.lookup "addr:village"]
  let state := firstNonEmpty [tags.lookup "addr:state", tags.lookup "addr:province"]
  let present := [city, state].filterMap id
  if present = [] then [] else [String.intercalate ", " present]

/-- Spec §4.3 step 3: "Postcode appended as its own segment if present." -/
def postcodeLineSpec (tags : Tags) : List String :=
  match tags.lookup "addr:postcode" with
  | none => []
  | some p => if p = "" then [] else [p]

/-- Spec §4.3 step 4, first half: "All present segments joined by ", ";
if no segments at all, address is null (not an empty string)." -/
def buildAddressSpec (tags : Tags) : Option String :=
  let segs := streetLineSpec tags ++ localityLineSpec tags ++ postcodeLineSpec tags
  if segs = [] then none else some (String.intercalate ", " segs)

/-- Spec §4.3 step 4, second half: "If the street/locality/postcode address
is null, fall back to a literal `addr:full` tag if present, else null." -/
def addressSpec (tags : Tags) : Option String :=
  match buildAddressSpec tags with
  | some a => some a
  | none => tags.lookup "addr:full"

/-- Spec §4.3: "uses the element's `name` tag if present and non-empty;
otherwise defaults to the literal string "Laundromat"." -/
def nameSpec (tags : Tags) : String :=
  match tags.lookup "name" with
  | none => "Laundromat"
  | some s => if s = "" then "Laundromat" else s

/-- The six fixed geometry/key/value combinations the spec says the spatial
query targets. -/
def laundryCombos : List (String × String × String) :=
  [("node", "shop", "laundry"), ("way", "shop", "laundry"),
   ("node", "amenity", "laundry"), ("way", "amenity", "laundry"),
   ("node", "amenity", "laundrette"), ("way", "amenity", "laundrette")]

/-- Spec §4.2 rendering of the spatial query: one clause per fixed
combination, between the same header and a footer capping upstream
records at `max_results`. -/
def overpassQuerySpec (radius_m : ℤ) (la lo : ℚ) (max_results : ℕ) : String :=
  overpassHeader ++
    laundryCombos.foldr
      (fun gkv acc => overpassClause gkv.1 gkv.2.1 gkv.2.2 radius_m la lo ++ acc)
      (overpassFooter max_results)

/-! Concrete fixtures used by the scenario proofs and witnesses. -/

/-- Tag mapping of the spec §8 "Clean Co" scenario element. -/
def cleanCoTags : Tags :=
  [("shop", "laundry"), ("name", "Clean Co"), ("addr:housenumber", "12"),
   ("addr:street", "Main St"), ("addr:city", "Springfield")]

/-- The spec §8 scenario element: a point at lat 1.0, lon 2.0. -/
def cleanCoElement : RawElement :=
  { type := some "node", id := some 1, lat := some 1, lon := some 2,
    center := none, tags := some cleanCoTags }

/-- The normalized record the "Clean Co" scenario element produces. -/
def cleanCoResult : SearchResult :=
  { id := "node/1", name := "Clean Co", address := some "12 Main St, Springfield",
    lat := some 1, lon := some 2, distance_km := none, opening_hours := none,
    phone := none, website := none,
    osm_url := "https://www.openstreetmap.org/node/1" }

/-- A successful geocoder fixture resolving to (3, 4). -/
def geoFix : GeoResponse :=
  ⟨200, [⟨some (.num 3), some (.num 4), some "Springfield"⟩]⟩

/-- A node element named "Zeta Wash" at (1, 1). -/
def zetaElement : RawElement :=
  { type := some "node", id := some 10, lat := some 1, lon := some 1,
    center := none, tags := some [("name", "Zeta Wash")] }

/-- The normalized record `zetaElement` produces. -/
def zetaResult : SearchResult :=
  { id := "node/10", name := "Zeta Wash", address := none,
    lat := some 1, lon := some 1, distance_km := none, opening_hours := none,
    phone := none, website := none,
    osm_url := "https://www.openstreetmap.org/node/10" }

/-- An Overpass fixture returning the single `zetaElement`. -/
def ovFix : OverpassResponse := ⟨200, some [zetaElement]⟩

/-- The response the fixture search produces. -/
def respFix : SearchResponse := ⟨⟨3, 4, some "Springfield"⟩, 1, [zetaResult]⟩

/-- A non-node element with neither direct coordinates nor a centroid. -/
def dropElement : RawElement :=
  { type := some "way", id := some 12, lat := some 9, lon := some 9,
    center := none, tags := some [("name", "Dropped")] }

/-- An area element carrying centroid coordinates. -/
def areaElement : RawElement :=
  { type := some "way", id := some 13, lat := none, lon := none,
    center := some ⟨some 5, some 6⟩, tags := some [("amenity", "laundrette")] }

/-- A node element with no tags mapping at all. -/
def noTagsElement : RawElement :=
  { type := some "node", id := some 30, lat := some 1, lon := some 1,
    center := none, tags := none }

/-- The normalized record `noTagsElement` produces. -/
def noTagsResult : SearchResult :=
  { id := "node/30", name := "Laundromat", address := none,
    lat := some 1, lon := some 1, distance_km := none, opening_hours := none,
    phone := none, website := none,
    osm_url := "https://www.openstreetmap.org/node/30" }

/-- Two elements sharing the name "Same", in a fixed upstream order. -/
def sameElementA : RawElement :=
  { type := some "node", id := some 21, lat := some 1, lon := some 1,
    center := none, tags := some [("name", "Same")] }

/-- Second element named "Same". -/
def sameElementB : RawElement :=
  { type := some "node", id := some 22, lat := some 2, lon := some 2,
    center := none, tags := some [("name", "Same")] }

/-- The normalized record `sameElementA` produces. -/
def sameResultA : SearchResult :=
  { id := "node/21", name := "Same", address := none,
    lat := some 1, lon := some 1, distance_km := none, opening_hours := none,
    phone := none, website := none,
    osm_url := "https://www.openstreetmap.org/node/21" }

/-- The normalized record `sameElementB` produces. -/
def sameResultB : SearchResult :=
  { id := "node/22", name := "Same", address := none,
    lat := some 2, lon := some 2, distance_km := none, opening_hours := none,
    phone := none, website := none,
    osm_url := "https://www.openstreetmap.org/node/22" }

/-- An Overpass fixture with the two equally-named elements. -/
def ovSame : OverpassResponse := ⟨200, some [sameElementA, sameElementB]⟩

/-! ### Helper lemmas -/

theorem pyOrStr_ne_empty (a : Option String) {d : String} (hd : d ≠ "") :
    pyOrStr a d ≠ "" := by
  rcases a with _ | s
  · simpa [pyOrStr, truthy] using hd
  · by_cases hs : s = "" <;> simp [pyOrStr, truthy, hs, hd]

theorem normalize_some_props {el : RawElement} {r : SearchResult}
    (h : normalizeElement el = some r) :
    r.lat.isSome ∧ r.lon.isSome ∧ r.distance_km = none ∧ r.name ≠ "" := by
  unfold normalizeElement at h
  rcases h1 : (elementCoords el).1 with _ | la <;>
    rcases h2 : (elementCoords el).2 with _ | lo <;>
      simp [h1, h2] at h
  subst h
  exact ⟨rfl, rfl, rfl, pyOrStr_ne_empty _ (by simp)⟩

theorem normalize_none_of_missing {el : RawElement}
    (h : (elementCoords el).1 = none ∨ (elementCoords el).2 = none) :
    normalizeElement el = none := by
  unfold normalizeElement
  rcases h1 : (elementCoords el).1 with _ | la <;>
    rcases h2 : (elementCoords el).2 with _ | lo <;>
      simp [h1, h2] at h ⊢

theorem sortKey_eq_name {r : SearchResult} (h : r.name ≠ "") : sortKey r = r.name := by
  simp [sortKey, pyOrStr, truthy, h]

theorem resultLE_trans : ∀ a b c, resultLE a b → resultLE b c → resultLE a c := by
  intro a b c hab hbc
  simp only [resultLE, decide_eq_true_eq] at *
  exact le_trans hab hbc

theorem resultLE_total : ∀ a b, resultLE a b || resultLE b a := by
  intro a b
  simp only [resultLE, Bool.or_eq_true, decide_eq_true_eq]
  exact le_total _ _

theorem success_results {geo : GeoResponse} {ov : OverpassResponse}
    {q : String} {r : ℚ} {m : ℕ} {resp : SearchResponse} {pl : Option String}
    (h : search_laundromats geo ov q r m = (.success resp, pl)) :
    resp.results = (sortedResults ov).take m ∧ resp.count = resp.results.length := by
  unfold search_laundromats at h
  rcases hg : geocode_location geo with e | oc
  · rw [hg] at h; simp at h
  · rcases oc with _ | c
    · rw [hg] at h; simp at h
    · rw [hg] at h
      by_cases hs : ov.status_code ≠ 200
      · simp [hs] at h
      · simp only [hs, reduceIte] at h
        injection h with h1 h2
        injection h1 with h1
        rw [← h1]
        exact ⟨rfl, rfl⟩

theorem mem_sortedResults {ov : OverpassResponse} {x : SearchResult}
    (h : x ∈ sortedResults ov) : ∃ el, normalizeElement el = some x := by
  unfold sortedResults at h
  rw [List.mem_mergeSort] at h
  unfold normalizedResults at h
  rcases List.mem_filterMap.mp h with ⟨el, -, hel⟩
  exact ⟨el, hel⟩

theorem mem_success_results {geo : GeoResponse} {ov : OverpassResponse}
    {q : String} {r : ℚ} {m : ℕ} {resp : SearchResponse} {pl : Option String}
    (h : search_laundromats geo ov q r m = (.success resp, pl))
    {x : SearchResult} (hx : x ∈ resp.results) :
    ∃ el, normalizeElement el = some x := by
  rw [(success_results h).1] at hx
  exact mem_sortedResults (List.take_subset _ _ hx)

/-! ### Claim theorems -/

/-- C1: every `SearchResult` in a successful `SearchResponse` has non-null
latitude and longitude and a null `distance_km`, and an element whose
resolvable coordinates are missing is dropped rather than emitted. -/
theorem search_results_have_coordinates :
    (∀ geo ov q r m resp pl,
       search_laundromats geo ov q r m = (.success resp, pl) →
       ∀ x ∈ resp.results, x.lat.isSome ∧ x.lon.isSome ∧ x.distance_km = none) ∧
    (∀ el, (elementCoords el).1 = none ∨ (elementCoords el).2 = none →
       normalizeElement el = none) := by
  constructor
  · intro geo ov q r m resp pl h x hx
    obtain ⟨el, hel⟩ := mem_success_results h hx
    obtain ⟨h1, h2, h3, -⟩ := normalize_some_props hel
    exact ⟨h1, h2, h3⟩
  · intro el h
    exact normalize_none_of_missing h

/-- C3: a successful response's results list has length at most
`max_results`, and `count` equals that length. -/
theorem search_count_and_truncation :
    ∀ geo ov q r m resp pl,
      search_laundromats geo ov q r m = (.success resp, pl) →
      resp.results.length ≤ m ∧ resp.count = resp.results.length := by
  intro geo ov q r m resp pl h
  obtain ⟨h1, h2⟩ := success_results h
  refine ⟨?_, h2⟩
  rw [h1, List.length_take]
  exact min_le_left _ _

/-- C5: when the geocoder resolves nothing, the search fails with the 404
error and no Overpass payload is ever submitted. -/
theorem geocode_notfound_gives_404_no_spatial_query :
    ∀ geo ov q r m, geocode_location geo = .ok none →
      search_laundromats geo ov q r m =
        (.httpError 404 "Location not found. Try a different search.", none) := by
  intro geo ov q r m h
  unfold search_laundromats
  rw [h]

/-- C9: normalization is total over arbitrary element shapes: any non-node
element reads its coordinates from the optional `center` object and is
silently dropped when they are unresolvable, and an element without a
`tags` mapping gets the default name and null optional fields. -/
theorem normalization_total_and_drop_rules :
    (∀ el, normalizeElement el = none ∨ ∃ r, normalizeElement el = some r) ∧
    (∀ el : RawElement, el.type ≠ some "node" →
       elementCoords el = (match el.center with
         | some c => (c.lat, c.lon)
         | none => (none, none))) ∧
    (∀ el : RawElement, el.type ≠ some "node" →
       (el.center = none ∨ ∃ c, el.center = some c ∧ (c.lat = none ∨ c.lon = none)) →
       normalizeElement el = none) ∧
    (∀ (el : RawElement) r, el.tags = none → normalizeElement el = some r →
       r.name = "Laundromat" ∧ r.address = none ∧ r.opening_hours = none ∧
       r.phone = none ∧ r.website = none) := by
  refine ⟨?_, ?_, ?_, ?_⟩
  · intro el
    rcases h : normalizeElement el with _ | r
    · exact Or.inl rfl
    · exact Or.inr ⟨r, rfl⟩
  · intro el h
    unfold elementCoords
    rw [if_neg h]
  · intro el h h2
    apply normalize_none_of_missing
    have hc : elementCoords el = (match el.center with
        | some c => (c.lat, c.lon)
        | none => (none, none)) := by
      unfold elementCoords
      rw [if_neg h]
    rcases h2 with hc0 | ⟨c, hc0, hlat | hlon⟩
    · rw [hc, hc0]
      exact Or.inl rfl
    · rw [hc, hc0]
      exact Or.inl hlat
    · rw [hc, hc0]
      exact Or.inr hlon
  · intro el r htags h
    unfold normalizeElement at h
    rw [htags] at h
    rcases h1 : (elementCoords el).1 with _ | la <;>
      rcases h2 : (elementCoords el).2 with _ | lo <;>
        simp [h1, h2] at h
    subst h
    exact ⟨rfl, rfl, rfl, rfl, rfl⟩

/-- C10: every normalized result's name is non-empty, so the "zzzz"
sentinel in the sort key is unreachable and the key is the name itself. -/
theorem normalized_name_nonempty_sentinel_unreachable :
    ∀ el r, normalizeElement el = some r → r.name ≠ "" ∧ sortKey r = r.name := by
  intro el r h
  have hn := (normalize_some_props h).2.2.2
  exact ⟨hn, sortKey_eq_name hn⟩

/-- C4: a successful response's results are sorted by name, case-sensitive
ascending: adjacent pairs satisfy `a.name ≤ b.name`. -/
theorem search_results_sorted_by_name :
    ∀ geo ov q r m resp pl,
      search_laundromats geo ov q r m = (.success resp, pl) →
      List.Chain' (fun a b => a.name ≤ b.name) resp.results := by
  intro geo ov q r m resp pl h
  apply List.Pairwise.chain'
  have hsorted : List.Pairwise (fun a b => resultLE a b = true) (sortedResults ov) := by
    unfold sortedResults
    exact List.sorted_mergeSort resultLE_trans resultLE_total (normalizedResults ov)
  have htake : List.Pairwise (fun a b => resultLE a b = true) ((sortedResults ov).take m) :=
    List.Pairwise.sublist (List.take_sublist _ _) hsorted
  rw [(success_results h).1]
  refine List.Pairwise.imp_of_mem ?_ htake
  intro a b ha hb hab
  obtain ⟨ela, hela⟩ := mem_sortedResults (List.take_subset _ _ ha)
  obtain ⟨elb, helb⟩ := mem_sortedResults (List.take_subset _ _ hb)
  have hna := (normalize_some_props hela).2.2.2
  have hnb := (normalize_some_props helb).2.2.2
  have hk : sortKey a ≤ sortKey b := by simpa [resultLE] using hab
  rwa [sortKey_eq_name hna, sortKey_eq_name hnb] at hk

/-- C8: the search is a pure function of (fixture, query, radius,
max_results) — identical inputs give identical responses — and the sort is
stable: two equally-keyed results keep their fixed upstream order. -/
theorem search_deterministic_and_sort_stable :
    (∀ geo ov q r m geo2 ov2 q2 r2 m2,
       geo = geo2 → ov = ov2 → q = q2 → r = r2 → m = m2 →
       search_laundromats geo ov q r m = search_laundromats geo2 ov2 q2 r2 m2) ∧
    (∀ ov a b, List.Sublist [a, b] (normalizedResults ov) → sortKey a = sortKey b →
       List.Sublist [a, b] (sortedResults ov)) := by
  constructor
  · intro geo ov q r m geo2 ov2 q2 r2 m2 h1 h2 h3 h4 h5
    rw [h1, h2, h3, h4, h5]
  · intro ov a b hsub hkey
    unfold sortedResults
    refine List.pair_sublist_mergeSort resultLE_trans resultLE_total ?_ hsub
    simp [resultLE, hkey]

/-- The fixture search evaluates to a concrete successful response. -/
theorem searchFix_eq :
    search_laundromats geoFix ovFix "q" 5 50 =
      (.success respFix, some (overpassQuery ⟨3, 4, some "Springfield"⟩ 5 50)) := by
  have h2 : sortedResults ovFix = [zetaResult] := by
    have h1 : normalizedResults ovFix = [zetaResult] := by rfl
    unfold sortedResults
    rw [h1, List.mergeSort_singleton]
  show (SearchOutcome.success
      ⟨⟨3, 4, some "Springfield"⟩, ((sortedResults ovFix).take 50).length,
        (sortedResults ovFix).take 50⟩,
      some (overpassQuery ⟨3, 4, some "Springfield"⟩ 5 50)) = _
  rw [h2]
  rfl

/-- C1 witness: the fixture response's results all carry coordinates and a
null distance, and a coordinate-free element is dropped. -/
theorem search_results_have_coordinates_witness :
    (∀ x ∈ respFix.results, x.lat.isSome ∧ x.lon.isSome ∧ x.distance_km = none) ∧
    normalizeElement dropElement = none :=
  ⟨search_results_have_coordinates.1 geoFix ovFix "q" 5 50 respFix
      (some (overpassQuery ⟨3, 4, some "Springfield"⟩ 5 50)) searchFix_eq,
    search_results_have_coordinates.2 dropElement (Or.inl rfl)⟩

/-- C3 witness at the concrete fixture. -/
theorem search_count_and_truncation_witness :
    respFix.results.length ≤ 50 ∧ respFix.count = respFix.results.length :=
  search_count_and_truncation geoFix ovFix "q" 5 50 respFix
    (some (overpassQuery ⟨3, 4, some "Springfield"⟩ 5 50)) searchFix_eq

/-- C4 witness at the concrete fixture. -/
theorem search_results_sorted_by_name_witness :
    List.Chain' (fun a b => a.name ≤ b.name) respFix.results :=
  search_results_sorted_by_name geoFix ovFix "q" 5 50 respFix
    (some (overpassQuery ⟨3, 4, some "Springfield"⟩ 5 50)) searchFix_eq

/-- C5 witness: an empty geocoder match list yields the 404 outcome with no
Overpass payload. -/
theorem geocode_notfound_gives_404_no_spatial_query_witness :
    search_laundromats ⟨200, []⟩ ovFix "Qwxzplorp123" 5 50 =
      (.httpError 404 "Location not found. Try a different search.", none) :=
  geocode_notfound_gives_404_no_spatial_query ⟨200, []⟩ ovFix "Qwxzplorp123" 5 50 rfl

/-- C8 witness: determinism at the fixture, and the two equally-named
results keep their upstream order through the sort. -/
theorem search_deterministic_and_sort_stable_witness :
    search_laundromats geoFix ovFix "q" 5 50 = search_laundromats geoFix ovFix "q" 5 50 ∧
    List.Sublist [sameResultA, sameResultB] (sortedResults ovSame) :=
  ⟨search_deterministic_and_sort_stable.1 geoFix ovFix "q" 5 50 geoFix ovFix "q" 5 50
      rfl rfl rfl rfl rfl,
    search_deterministic_and_sort_stable.2 ovSame sameResultA sameResultB
      (show List.Sublist [sameResultA, sameResultB] (normalizedResults ovSame) from
        List.Sublist.refl _)
      rfl⟩

/-- C9 witness: centroid coordinates for an area element, silent drop
without centroid, and defaults for a tagless element. -/
theorem normalization_total_and_drop_rules_witness :
    elementCoords areaElement = (some 5, some 6) ∧
    normalizeElement dropElement = none ∧
    (noTagsResult.name = "Laundromat" ∧ noTagsResult.address = none ∧
      noTagsResult.opening_hours = none ∧ noTagsResult.phone = none ∧
      noTagsResult.website = none) :=
  ⟨by rw [normalization_total_and_drop_rules.2.1 areaElement (by decide)]; rfl,
    normalization_total_and_drop_rules.2.2.1 dropElement (by decide) (Or.inl rfl),
    normalization_total_and_drop_rules.2.2.2 noTagsElement noTagsResult rfl rfl⟩

/-- C10 witness at the "Zeta Wash" fixture element. -/
theorem normalized_name_nonempty_sentinel_unreachable_witness :
    zetaResult.name ≠ "" ∧ sortKey zetaResult = zetaResult.name :=
  normalized_name_nonempty_sentinel_unreachable zetaElement zetaResult rfl

/-! ### C6: address and name construction follow the spec's description -/

theorem length_zero_eq_empty {s : String} (h : s.length = 0) : s = "" := by
  cases s with
  | mk data =>
    cases data with
    | nil => rfl
    | cons c cs => simp at h

theorem append_ne_empty_left {a : String} (b : String) (h : a ≠ "") : a ++ b ≠ "" := by
  intro hab
  apply h
  apply length_zero_eq_empty
  have hl := congrArg String.length hab
  simp [String.length_append] at hl
  omega

theorem append_ne_empty_right (a : String) {b : String} (h : b ≠ "") : a ++ b ≠ "" := by
  intro hab
  apply h
  apply length_zero_eq_empty
  have hl := congrArg String.length hab
  simp [String.length_append] at hl
  omega

theorem pair_ne_empty (a b : String) : a ++ ", " ++ b ≠ "" :=
  append_ne_empty_left _ (append_ne_empty_right _ (by decide))

theorem firstNonEmpty_ne : ∀ {l : List (Option String)} {s : String},
    firstNonEmpty l = some s → s ≠ ""
  | [], s, h => by simp [firstNonEmpty] at h
  | none :: r, s, h => firstNonEmpty_ne (l := r) h
  | some t :: r, s, h => by
    rw [show firstNonEmpty (some t :: r) = if t = "" then firstNonEmpty r else some t from
      rfl] at h
    split_ifs at h with ht
    · exact firstNonEmpty_ne h
    · injection h with h
      rw [← h]
      exact ht

theorem intercalate_nil (s : String) : String.intercalate s [] = "" := rfl

theorem intercalate_single (s a : String) : String.intercalate s [a] = a := rfl

theorem intercalate_pair (s a b : String) : String.intercalate s [a, b] = a ++ s ++ b := rfl

theorem intercalate_go_ne : ∀ (as : List String) (acc s : String), acc ≠ "" →
    String.intercalate.go acc s as ≠ ""
  | [], _, _, h => h
  | a :: as, acc, s, h =>
    intercalate_go_ne as (acc ++ s ++ a) s (append_ne_empty_left _ (append_ne_empty_left _ h))

theorem intercalate_cons_ne {a : String} (s : String) (xs : List String) (ha : a ≠ "") :
    String.intercalate s (a :: xs) ≠ "" :=
  intercalate_go_ne xs a s ha

theorem ite_append_singleton {α : Type} (h : Prop) [Decidable h] (l : List α) (x : α) :
    (if h then l ++ [x] else l) = l ++ (if h then [x] else []) := by
  split_ifs <;> simp

theorem streetLine_eq (tags : Tags) :
    (if truthy (tags.lookup "addr:street") then
        [(if truthy (tags.lookup "addr:housenumber") then
            (tags.lookup "addr:housenumber").getD "" ++ " "
          else "") ++ (tags.lookup "addr:street").getD ""]
      else ([] : List String)) = streetLineSpec tags := by
  unfold streetLineSpec
  rcases tags.lookup "addr:street" with _ | st <;>
    rcases tags.lookup "addr:housenumber" with _ | n <;>
      simp [truthy] <;> split_ifs <;> simp_all

theorem locality_parts_eq (c t v s p : Option String) :
    ([pyOr (pyOr c t) v, pyOr s p].filter truthy).map (fun o => o.getD "") =
    [firstNonEmpty [c, t, v], firstNonEmpty [s, p]].filterMap id := by
  rcases c with _ | c <;> rcases t with _ | t <;> rcases v with _ | v <;>
    rcases s with _ | s <;> rcases p with _ | p <;>
      simp [pyOr, truthy, firstNonEmpty] <;> (try split_ifs) <;>
        simp_all [truthy, List.filter_cons]

theorem localityLine_eq (tags : Tags) :
    (if String.intercalate ", "
          (([pyOr (pyOr (tags.lookup "addr:city") (tags.lookup "addr:town"))
              (tags.lookup "addr:village"),
             pyOr (tags.lookup "addr:state") (tags.lookup "addr:province")].filter
            truthy).map (fun o => o.getD "")) ≠ ""
      then
        [String.intercalate ", "
          (([pyOr (pyOr (tags.lookup "addr:city") (tags.lookup "addr:town"))
              (tags.lookup "addr:village"),
             pyOr (tags.lookup "addr:state") (tags.lookup "addr:province")].filter
            truthy).map (fun o => o.getD ""))]
      else ([] : List String)) = localityLineSpec tags := by
  unfold localityLineSpec
  rw [locality_parts_eq]
  rcases hfc : firstNonEmpty [tags.lookup "addr:city", tags.lookup "addr:town",
      tags.lookup "addr:village"] with _ | cv <;>
    rcases hfs : firstNonEmpty [tags.lookup "addr:state", tags.lookup "addr:province"]
      with _ | sv
  · simp [intercalate_nil]
  · simp [intercalate_single, firstNonEmpty_ne hfs]
  · simp [intercalate_single, firstNonEmpty_ne hfc]
  · simp [intercalate_pair, pair_ne_empty]

theorem postcodeLine_eq (tags : Tags) :
    (if truthy (tags.lookup "addr:postcode") then
        [(tags.lookup "addr:postcode").getD ""]
      else ([] : List String)) = postcodeLineSpec tags := by
  unfold postcodeLineSpec
  rcases tags.lookup "addr:postcode" with _ | p <;>
    simp [truthy] <;> split_ifs <;> simp_all

theorem build_address_eq_spec (tags : Tags) : build_address tags = buildAddressSpec tags := by
  unfold build_address buildAddressSpec
  simp only [streetLine_eq, ite_append_singleton, localityLine_eq, postcodeLine_eq]
  by_cases h1 : streetLineSpec tags = [] <;> by_cases h2 : localityLineSpec tags = [] <;>
    by_cases h3 : postcodeLineSpec tags = [] <;> simp [h1, h2, h3]

theorem streetLineSpec_ne {tags : Tags} {x : String} (hx : x ∈ streetLineSpec tags) :
    x ≠ "" := by
  unfold streetLineSpec at hx
  rcases hst : tags.lookup "addr:street" with _ | st <;> simp only [hst] at hx
  · simp at hx
  · split_ifs at hx with h1
    · simp at hx
    · rcases hn : tags.lookup "addr:housenumber" with _ | n <;> simp only [hn] at hx
      · simp at hx
        rw [hx]
        exact h1
      · split_ifs at hx with h2
        · simp at hx
          rw [hx]
          exact h1
        · simp at hx
          rw [hx]
          exact append_ne_empty_right _ h1

theorem localityLineSpec_ne {tags : Tags} {x : String} (hx : x ∈ localityLineSpec tags) :
    x ≠ "" := by
  unfold localityLineSpec at hx
  rcases hfc : firstNonEmpty [tags.lookup "addr:city", tags.lookup "addr:town",
      tags.lookup "addr:village"] with _ | cv <;>
    rcases hfs : firstNonEmpty [tags.lookup "addr:state", tags.lookup "addr:province"]
      with _ | sv <;> simp [hfc, hfs] at hx
  · rw [hx, intercalate_single]
    exact firstNonEmpty_ne hfs
  · rw [hx, intercalate_single]
    exact firstNonEmpty_ne hfc
  · rw [hx, intercalate_pair]
    exact pair_ne_empty _ _

theorem postcodeLineSpec_ne {tags : Tags} {x : String} (hx : x ∈ postcodeLineSpec tags) :
    x ≠ "" := by
  unfold postcodeLineSpec at hx
  rcases hp : tags.lookup "addr:postcode" with _ | p <;> simp only [hp] at hx
  · simp at hx
  · split_ifs at hx with h1
    · simp at hx
    · simp at hx
      rw [hx]
      exact h1

theorem intercalate_ne_of_forall {l : List String} (hl : l ≠ [])
    (h : ∀ x ∈ l, x ≠ "") : String.intercalate ", " l ≠ "" := by
  rcases l with _ | ⟨x, rest⟩
  · exact absurd rfl hl
  · exact intercalate_cons_ne _ _ (h x (by simp))

theorem buildAddressSpec_ne_empty {tags : Tags} {a : String}
    (h : buildAddressSpec tags = some a) : a ≠ "" := by
  unfold buildAddressSpec at h
  simp only [] at h
  split_ifs at h with hseg
  injection h with h
  rw [← h]
  apply intercalate_ne_of_forall
  · exact hseg
  · intro x hx
    have hx2 : x ∈ streetLineSpec tags ∨ x ∈ localityLineSpec tags ∨
        x ∈ postcodeLineSpec tags := by
      simpa [List.mem_append, or_assoc] using hx
    rcases hx2 with hx3 | hx3 | hx3
    · exact streetLineSpec_ne hx3
    · exact localityLineSpec_ne hx3
    · exact postcodeLineSpec_ne hx3

theorem address_eq_spec (tags : Tags) :
    pyOr (build_address tags) (tags.lookup "addr:full") = addressSpec tags := by
  rw [build_address_eq_spec]
  unfold addressSpec
  rcases h : buildAddressSpec tags with _ | a
  · simp [pyOr, truthy]
  · have ha := buildAddressSpec_ne_empty h
    simp [pyOr, truthy, ha]

theorem name_eq_spec (tags : Tags) :
    pyOrStr (tags.lookup "name") "Laundromat" = nameSpec tags := by
  unfold nameSpec
  rcases tags.lookup "name" with _ | s <;>
    simp [pyOrStr, truthy] <;> split_ifs <;> simp_all

/-- C6: the "Clean Co" scenario normalizes exactly as the spec says, and in
general every normalized result's name and address agree with the spec's
name rule and street/locality/postcode/addr:full address construction. -/
theorem normalizer_follows_spec :
    normalizeElement cleanCoElement = some cleanCoResult ∧
    (∀ el r, normalizeElement el = some r →
       r.name = nameSpec (el.tags.getD []) ∧ r.address = addressSpec (el.tags.getD [])) := by
  constructor
  · rfl
  · intro el r h
    unfold normalizeElement at h
    rcases h1 : (elementCoords el).1 with _ | la <;>
      rcases h2 : (elementCoords el).2 with _ | lo <;>
        simp [h1, h2] at h
    subst h
    exact ⟨name_eq_spec _, address_eq_spec _⟩

/-- C6 witness at the "Clean Co" scenario element. -/
theorem normalizer_follows_spec_witness :
    cleanCoResult.name = nameSpec (cleanCoElement.tags.getD []) ∧
    cleanCoResult.address = addressSpec (cleanCoElement.tags.getD []) :=
  normalizer_follows_spec.2 cleanCoElement cleanCoResult rfl

/-! ### C7: structure of the Overpass query -/

theorem template_eq_spec (radius_m : ℤ) (la lo : ℚ) (max_results : ℕ) :
    overpassQueryTemplate radius_m la lo max_results =
      overpassQuerySpec radius_m la lo max_results := by
  simp [overpassQueryTemplate, overpassQuerySpec, laundryCombos, String.append_assoc]

/-- C7: the spatial query targets exactly the six fixed geometry/tag
combinations with the upstream cap `max_results`, and the radius in meters
is the integer truncation of `radius_km * 1000`. -/
theorem overpass_query_fixed_combos :
    (∀ radius_m la lo m,
       overpassQueryTemplate radius_m la lo m = overpassQuerySpec radius_m la lo m) ∧
    (∀ (c : Center) r m,
       overpassQuery c r m = (overpassQuerySpec (radiusMeters r) c.lat c.lon m).trim) ∧
    (∀ r : ℚ, 0 ≤ r →
       ((radiusMeters r : ℚ) ≤ r * 1000 ∧ r * 1000 < (radiusMeters r : ℚ) + 1)) := by
  refine ⟨template_eq_spec, ?_, ?_⟩
  · intro c r m
    rw [overpassQuery, template_eq_spec]
  · intro r hr
    have h1000 : (0 : ℚ) ≤ r * 1000 := by positivity
    unfold radiusMeters ratTrunc
    rw [if_pos h1000]
    exact ⟨Int.floor_le _, Int.lt_floor_add_one _⟩

/-- C7 witness: truncation bracketing evaluated at radius 5/2 km. -/
theorem overpass_query_fixed_combos_witness :
    (radiusMeters (5 / 2) : ℚ) ≤ (5 / 2 : ℚ) * 1000 ∧
      (5 / 2 : ℚ) * 1000 < (radiusMeters (5 / 2) : ℚ) + 1 :=
  overpass_query_fixed_combos.2.2 (5 / 2) (by norm_num)

/-! ### C2: parse failure in the geocoder raises, it is not NotFound -/

/-- C2 counterexample: a 200 geocoder response whose single match carries an
unparseable latitude string makes `geocode_location` raise `ValueError`;
the outcome is not the NotFound value `.ok none` the claim requires. -/
theorem geocode_parse_failure_not_notfound :
    geocode_location ⟨200, [⟨some (.str "not-a-number"), some (.num 0), none⟩]⟩ =
        .error .valueError ∧
    geocode_location ⟨200, [⟨some (.str "not-a-number"), some (.num 0), none⟩]⟩ ≠
        .ok none := by
  exact ⟨rfl, by decide⟩

/-- C2 (amended): when the geocoder response is a success with at least one
match and parsing the first match's latitude or longitude fails, the parse
exception is raised and propagates out of the search operation uncaught
(before any spatial query), rather than being folded into NotFound. -/
theorem geocode_parse_failure_raises :
    ∀ (geo : GeoResponse) (item : GeoItem) (rest : List GeoItem) (e : PyExc)
      (ov : OverpassResponse) (q : String) (r : ℚ) (m : ℕ),
      geo.status_code = 200 → geo.data = item :: rest →
      (pyFloat item.lat = .error e ∨
        ((∃ v, pyFloat item.lat = .ok v) ∧ pyFloat item.lon = .error e)) →
      geocode_location geo = .error e ∧
      search_laundromats geo ov q r m = (.pyError e, none) := by
  intro geo item rest e ov q r m h200 hdata hparse
  have hg : geocode_location geo = .error e := by
    unfold geocode_location
    rw [if_neg (by simp [h200])]
    simp only [hdata]
    rcases hparse with hl | ⟨⟨v, hv⟩, hlon⟩
    · rw [hl]
      rfl
    · simp only [hv, hlon]
      rfl
  refine ⟨hg, ?_⟩
  unfold search_laundromats
  rw [hg]

/-- C2 (amended) witness: a missing latitude value raises `TypeError` which
surfaces from the search. -/
theorem geocode_parse_failure_raises_witness :
    geocode_location ⟨200, [⟨none, some (.num 0), none⟩]⟩ = .error .typeError ∧
    search_laundromats ⟨200, [⟨none, some (.num 0), none⟩]⟩ ovFix "q" 5 50 =
      (.pyError .typeError, none) :=
  geocode_parse_failure_raises ⟨200, [⟨none, some (.num 0), none⟩]⟩
    ⟨none, some (.num 0), none⟩ [] .typeError ovFix "q" 5 50 rfl rfl (Or.inl rfl)

end LaundromatFinder
